import Mathlib

/-!
# Verification of the blade_bar tray synchronization core

Shallow embedding of the tray subsystem of the blade_bar repository:
the live event handler in `src/tray_widget.rs` (the module compiled by
`main.rs`), its controls helpers in `src/tray_widget/controls.rs`, and the
alternative handler in `src/tray_widget/widget.rs` that ships in the same
tree.  Maps guarded by `Arc<Mutex<HashMap<String, _>>>` are modelled as
functions `String → Option β`; the pure handler below is the semantics of
the code when every lock acquisition succeeds, and a separate lock-aware
variant tracks which failure sites panic (`unwrap`/`expect`) and which
degrade to a no-op (`if let Ok`).
-/

namespace BladeBar

/-! ## Data model (types from the `system_tray` crate used by the code) -/

/-- `system_tray::item::IconPixmap`: width/height are `i32`, pixels a byte
buffer; bytes are modelled as `Nat` values below 256. -/
structure IconPixmap where
  width : Int
  height : Int
  pixels : List Nat
deriving DecidableEq

/-- `system_tray::item::Tooltip` (the two fields the code reads). -/
structure Tooltip where
  title : String
  description : String
deriving DecidableEq

/-- `system_tray::item::StatusNotifierItem`, restricted to the fields the
embedded functions read (`id`, `title`, `icon_name`, `icon_pixmap`,
`tool_tip`). -/
structure StatusNotifierItem where
  id : String
  title : Option String
  icon_name : Option String
  icon_pixmap : Option (List IconPixmap)
  tool_tip : Option Tooltip
deriving DecidableEq

/-- `system_tray::menu::MenuType`: the code only distinguishes separators
from everything else. -/
inductive MenuType where
  | standard
  | separator
deriving DecidableEq

/-- `system_tray::menu::MenuItem`.  The fields read by the embedded menu
builders are `id`, `label`, `enabled`, `visible`, `icon_name`, `menu_type`
and `submenu`. -/
inductive MenuItem : Type where
  | mk : (id : Int) → (label : Option String) → (enabled : Bool) →
      (visible : Bool) → (icon_name : Option String) →
      (menu_type : MenuType) → (submenu : List MenuItem) → MenuItem

def MenuItem.id : MenuItem → Int
  | .mk i _ _ _ _ _ _ => i

def MenuItem.label : MenuItem → Option String
  | .mk _ l _ _ _ _ _ => l

def MenuItem.enabled : MenuItem → Bool
  | .mk _ _ e _ _ _ _ => e

def MenuItem.visible : MenuItem → Bool
  | .mk _ _ _ v _ _ _ => v

def MenuItem.icon_name : MenuItem → Option String
  | .mk _ _ _ _ n _ _ => n

def MenuItem.menu_type : MenuItem → MenuType
  | .mk _ _ _ _ _ t _ => t

def MenuItem.submenu : MenuItem → List MenuItem
  | .mk _ _ _ _ _ _ s => s

/-- `system_tray::menu::TrayMenu`, restricted to the `submenus` field, the
only one the code reads. -/
structure TrayMenu where
  submenus : List MenuItem

/-! ## String-keyed maps

`HashMap<String, V>` behind a mutex is modelled extensionally as
`String → Option V`; the code never iterates over these maps, it only
inserts, removes and looks up. -/

abbrev StrMap (β : Type) : Type := String → Option β

def StrMap.empty {β : Type} : StrMap β := fun _ => none

def StrMap.insert {β : Type} (k : String) (v : β) (m : StrMap β) : StrMap β :=
  fun k2 => if k2 = k then some v else m k2

def StrMap.erase {β : Type} (k : String) (m : StrMap β) : StrMap β :=
  fun k2 => if k2 = k then none else m k2

/-! ## Menu realizations (`gio::Menu` contents built by the code) -/

/-- One entry of a built `gio::Menu` model.  `entry` carries the label, the
action sensitivity and the menu-item id the click callback closes over;
`sectionSep` is the separator section appended for label-less items;
`placeholderNoItems` is the "No menu items" fallback; `basicItem` is an
entry of the static fallback menu in `menu_helpers.rs` (label, action
name, icon name). -/
inductive GEntry where
  | entry (label : String) (enabled : Bool) (id : Int)
  | sectionSep
  | placeholderNoItems
  | basicItem (label : String) (action : String) (icon : String)
deriving DecidableEq

/-- A realized `PopoverMenu` (from `PopoverMenu::from_model`): identified by
the `gio::Menu` contents it was built from. -/
structure PopoverMenu where
  model : List GEntry
deriving DecidableEq

/-- `populate_gmenu_from_menu_items` (tray_widget.rs:379-436): flat walk of
the menu items; invisible items are skipped; a missing or empty label is
treated as a separator (appended only when the menu already has entries);
otherwise an action-backed entry is appended; an empty result yields the
"No menu items" placeholder. -/
def populate_gmenu_from_menu_items (menu_items : List MenuItem) : List GEntry :=
  let g := menu_items.foldl
    (fun g item =>
      if item.visible = false then g
      else
        match item.label with
        | none => if g.length > 0 then g ++ [GEntry.sectionSep] else g
        | some l =>
            if l = "" then (if g.length > 0 then g ++ [GEntry.sectionSep] else g)
            else g ++ [GEntry.entry l item.enabled item.id])
    []
  if g.length = 0 then [GEntry.placeholderNoItems] else g

/-! ## Pixel conversion and button icons (`controls.rs`) -/

/-- `u32::from_be_bytes([c0,c1,c2,c3])` on byte values; the `% 2 ^ 32`
records the u32 width (it is the identity when the inputs are bytes). -/
def u32_from_be_bytes (c0 c1 c2 c3 : Nat) : Nat :=
  (((c0 * 256 + c1) * 256 + c2) * 256 + c3) % 2 ^ 32

/-- One loop iteration of the ARGB→RGBA conversion (controls.rs:219-226):
`a = (argb >> 24) & 0xff`, `r = (argb >> 16) & 0xff`, `g = (argb >> 8) & 0xff`,
`b = argb & 0xff`, pushed in the order `[r, g, b, a]`.  `>> k` on a u32 is
division by `2 ^ k` and `& 0xff` is `% 256`. -/
def argb_chunk_to_rgba (c0 c1 c2 c3 : Nat) : List Nat :=
  let argb := u32_from_be_bytes c0 c1 c2 c3
  let a := argb / 2 ^ 24 % 256
  let r := argb / 2 ^ 16 % 256
  let g := argb / 2 ^ 8 % 256
  let b := argb % 256
  [r, g, b, a]

/-- The conversion loop over `data.chunks_exact(4)`: every complete
4-byte chunk is converted, the remainder (fewer than 4 trailing bytes)
is dropped. -/
def convert_argb_to_rgba : List Nat → List Nat
  | c0 :: c1 :: c2 :: c3 :: rest => argb_chunk_to_rgba c0 c1 c2 c3 ++ convert_argb_to_rgba rest
  | _ => []

/-- A built `gtk4::Image`: either from an icon name or from a pixbuf
(RGBA data, width, height, rowstride); both get pixel size 16. -/
inductive Image where
  | named (icon_name : String) (pixel_size : Int)
  | pixbuf (rgba : List Nat) (width height rowstride : Int) (pixel_size : Int)
deriving DecidableEq

/-- The pixbuf image built from the first pixmap (controls.rs:228-240):
RGBA data from the conversion, rowstride `width * 4`. -/
def pixmap_image (px : IconPixmap) : Image :=
  .pixbuf (convert_argb_to_rgba px.pixels) px.width px.height (px.width * 4) 16

/-- `create_button_icon` (controls.rs:203-246).  First match arm: a present,
non-empty icon name wins.  Second arm: otherwise a non-empty pixmap list
yields a pixbuf image from its first element.  Otherwise no image. -/
def create_button_icon (icon_name : Option String)
    (icon_pixmap : Option (List IconPixmap)) : Option Image :=
  match icon_name, icon_pixmap with
  | some n, pm =>
      if n = "" then
        match pm with
        | some (px :: _) => some (pixmap_image px)
        | _ => none
      else some (.named n 16)
  | none, some (px :: _) => some (pixmap_image px)
  | none, _ => none

/-- A `gtk4::Button` holds one content slot (an image child or a text
label), a tooltip and css classes. -/
inductive ButtonContent where
  | image (i : Image)
  | textLabel (s : String)
deriving DecidableEq

structure ButtonState where
  content : Option ButtonContent
  tooltip_text : Option String
  css_classes : List String
deriving DecidableEq

/-- `set_button_icon` (controls.rs:248-262): sets the image as the button
child, or falls back to a text label when no icon is available. -/
def set_button_icon (icon_name : Option String)
    (icon_pixmap : Option (List IconPixmap)) (button : ButtonState) : ButtonState :=
  match create_button_icon icon_name icon_pixmap with
  | some image => { button with content := some (.image image) }
  | none => { button with content := some (.textLabel "Óç¥") }

/-- `set_tooltip` (controls.rs:264-279): tooltip title, else the given
title, else empty; a non-empty description is appended on a new line. -/
def set_tooltip (button : ButtonState) (tooltip : Option Tooltip)
    (title : Option String) : ButtonState :=
  let tooltip_text := tooltip.map (fun t => t.title)
  let description := (tooltip.map (fun t => t.description)).getD ""
  let final_text := (tooltip_text.or title).getD ""
  let combined_text :=
    if description ≠ "" ∧ final_text ≠ "" then final_text ++ "\n" ++ description
    else final_text
  { button with tooltip_text := some combined_text }

/-- `create_tray_button` (controls.rs:12-201): new button with the
`tray-button` css class, icon from the item, tooltip from the item (title
defaulting to "Unknown").  The click-gesture controllers only issue
asynchronous activation calls and are not part of the registry state. -/
def create_tray_button (item : StatusNotifierItem) : ButtonState :=
  let button : ButtonState := { content := none, tooltip_text := none, css_classes := ["tray-button"] }
  let title := item.title.getD "Unknown"
  let button := set_button_icon item.icon_name item.icon_pixmap button
  set_tooltip button item.tool_tip (some title)

/-! ## Events (`system_tray::client::Event` / `UpdateEvent`) -/

/-- `system_tray::client::UpdateEvent`; payloads the handler never reads
are kept only where a later variant of the code could read them. -/
inductive UpdateEvent where
  | attentionIcon (icon : Option String)
  | icon (icon_name : Option String) (icon_pixmap : Option (List IconPixmap))
  | overlayIcon (icon : Option String)
  | status (status : Option String)
  | title (title : Option String)
  | tooltip (tooltip : Option Tooltip)
  | menu (menu : TrayMenu)
  | menuDiff
  | menuConnect (menu_path : String)

/-- `system_tray::client::Event`. -/
inductive Event where
  | add (service_key : String) (item : StatusNotifierItem)
  | update (service_key : String) (u : UpdateEvent)
  | remove (service_key : String)

/-- The service key an event addresses (the first component of every
`Event` variant). -/
def event_service_key : Event → String
  | .add k _ => k
  | .update k _ => k
  | .remove k => k

/-- The snapshot held by the `system_tray` client
(`client.items() : Mutex<HashMap<String, (StatusNotifierItem, Option<TrayMenu>)>>`),
read by the menu-building paths. -/
abbrev ClientItems : Type := StrMap (StatusNotifierItem × Option TrayMenu)

/-! ## The live registry (`tray_widget.rs`, the module compiled by `main.rs`) -/

/-- The four maps of `TrayWidget` (tray_widget.rs:17-27).  The GTK
`container` box always holds exactly the buttons of `item_buttons`
(appended on Add, removed on Remove) and carries no further state, so it
is not modelled separately. -/
structure TrayWidget where
  items : StrMap StatusNotifierItem
  item_buttons : StrMap ButtonState
  item_menus : StrMap PopoverMenu
  item_to_service_key : StrMap String

def TrayWidget.empty : TrayWidget :=
  { items := StrMap.empty, item_buttons := StrMap.empty,
    item_menus := StrMap.empty, item_to_service_key := StrMap.empty }

/-- `create_popover_menu_from_tray_menu` (tray_widget.rs:341-376): builds a
popover from the event's menu tree and stores it under the service key. -/
def create_popover_menu_from_tray_menu (s : TrayWidget) (tray_menu : TrayMenu)
    (service_key : String) : TrayWidget :=
  let popover : PopoverMenu := { model := populate_gmenu_from_menu_items tray_menu.submenus }
  { s with item_menus := StrMap.insert service_key popover s.item_menus }

/-- `create_popover_menu_for_service_key` (tray_widget.rs:190-239): if the
client snapshot holds menu data for the key, build a popover from it and
store it under the service key (overwriting any existing realization);
otherwise fall through to `create_basic_popover_menu`, which builds a
throwaway widget and stores nothing. -/
def create_popover_menu_for_service_key (client : ClientItems) (s : TrayWidget)
    (service_key : String) : TrayWidget :=
  match client service_key with
  | some (_item, some menu) =>
      let popover : PopoverMenu := { model := populate_gmenu_from_menu_items menu.submenus }
      { s with item_menus := StrMap.insert service_key popover s.item_menus }
  | _ => s

/-- `store_menu_for_item` (tray_widget.rs:155-170): moves a stored popover
from the service key to the item id.  Private and currently unreachable
from the event handler, but part of the registry's surface. -/
def store_menu_for_item (s : TrayWidget) (item_id service_key : String) : TrayWidget :=
  match s.item_menus service_key with
  | some menu =>
      { s with item_menus :=
          StrMap.insert item_id menu (StrMap.erase service_key s.item_menus) }
  | none => s

/-- `get_service_key_for_item` (tray_widget.rs:146-152), with the lock
acquired successfully (on failure the code returns `None`). -/
def get_service_key_for_item (s : TrayWidget) (item_id : String) : Option String :=
  s.item_to_service_key item_id

/-- `get_menu_for_item` (tray_widget.rs:124-134): resolves the item id to a
service key through the index, then looks the menu up by service key. -/
def get_menu_for_item (s : TrayWidget) (item_id : String) : Option PopoverMenu :=
  match s.item_to_service_key item_id with
  | some service_key => s.item_menus service_key
  | none => none

/-- `handle_tray_event` (tray_widget.rs:457-580), with every lock
acquisition succeeding (the lock-aware variant is below).

* Add: stores the item under the key, maps the item id to the key
  (overwriting), creates a button and stores it under the key.
* Remove: removes the item and the button; the index and the menu map are
  not touched.
* Update/Icon and Update/Tooltip: mutate the button in place when one
  exists for the key (modelled as re-inserting the updated button).
* Update/Menu: only when a button and an item exist for the key, and no
  menu is cached yet (`needs_creation`), build and store a realization
  from the event's tree.
* Update/MenuConnect: only when a button and an item exist for the key,
  rebuild from the client snapshot (no skip-if-present check).
* The remaining update variants are logged and ignored. -/
def handle_tray_event (client : ClientItems) (s : TrayWidget) (event : Event) : TrayWidget :=
  match event with
  | .add key item =>
      let s1 := { s with items := StrMap.insert key item s.items }
      let s2 := { s1 with item_to_service_key := StrMap.insert item.id key s1.item_to_service_key }
      let button := create_tray_button item
      { s2 with item_buttons := StrMap.insert key button s2.item_buttons }
  | .remove key =>
      { s with items := StrMap.erase key s.items,
               item_buttons := StrMap.erase key s.item_buttons }
  | .update key u =>
      match u with
      | .attentionIcon _ => s
      | .icon icon_name icon_pixmap =>
          match s.item_buttons key with
          | some button =>
              { s with item_buttons :=
                  StrMap.insert key (set_button_icon icon_name icon_pixmap button) s.item_buttons }
          | none => s
      | .overlayIcon _ => s
      | .status _ => s
      | .title _ => s
      | .tooltip tooltip =>
          match s.item_buttons key with
          | some button =>
              { s with item_buttons :=
                  StrMap.insert key (set_tooltip button tooltip none) s.item_buttons }
          | none => s
      | .menu tray_menu =>
          match s.item_buttons key with
          | some _button =>
              match s.items key with
              | some _item =>
                  if (s.item_menus key).isSome then s
                  else create_popover_menu_from_tray_menu s tray_menu key
              | none => s
          | none => s
      | .menuDiff => s
      | .menuConnect _menu_path =>
          match s.item_buttons key with
          | some _button =>
              match s.items key with
              | some _item => create_popover_menu_for_service_key client s key
              | none => s
          | none => s

/-- Folding a whole event sequence, in arrival order, through the handler
(the foreground loop in `TrayWidget::new`, tray_widget.rs:53-58). -/
def foldEvents (client : ClientItems) (s : TrayWidget) (events : List Event) : TrayWidget :=
  events.foldl (handle_tray_event client) s

/-! ## The alternative registry (`tray_widget/widget.rs`)

The repository ships a second, near-duplicate evolution of the widget in
`src/tray_widget/widget.rs` (not referenced by any `mod` declaration, so
not compiled into the binary, but part of the source tree and cited by the
spec).  Its Remove path purges all cross-references. -/

/-- One entry of the manually built popover in `manual_menu.rs`
(flat walk: separators by `menu_type`, visible labelled items as buttons,
placeholder when empty). -/
inductive ManualEntry where
  | separator
  | item (label : String) (enabled : Bool) (id : Int)
  | placeholderNoItems
deriving DecidableEq

/-- `create_manual_popover_menu` (manual_menu.rs:9-145), reduced to the
entries of the popover it builds; the click handlers only issue activation
calls.  The separator test `format!("{:?}", menu_type).contains("Separator")`
is `menu_type = separator`. -/
def create_manual_popover_menu (menu_items : List MenuItem) : List ManualEntry :=
  let g := menu_items.foldl
    (fun g item =>
      if item.visible = false then g
      else if item.menu_type = MenuType.separator then g ++ [ManualEntry.separator]
      else
        match item.label with
        | some l => if l = "" then g else g ++ [ManualEntry.item l item.enabled item.id]
        | none => g)
    []
  if g.length = 0 then [ManualEntry.placeholderNoItems] else g

/-- A manual `gtk4::Popover` realization, identified by its entries. -/
structure ManualPopover where
  entries : List ManualEntry
deriving DecidableEq

/-- The static fallback popover of `menu_helpers::create_basic_popover_menu`
(menu_helpers.rs:53-82). -/
def basic_popover_menu : PopoverMenu :=
  { model :=
      [GEntry.basicItem "Show/Hide" "app.show_hide" "window-minimize",
       GEntry.basicItem "Preferences" "app.preferences" "preferences-system",
       GEntry.basicItem "About" "app.about" "help-about",
       GEntry.basicItem "Quit" "app.quit" "application-exit"] }

/-- The maps of `widget.rs`'s `TrayWidget` (widget.rs:12-26).  Action
groups carry no state the proofs look at, so they are tracked as unit
values. -/
structure TrayWidgetW where
  items : StrMap StatusNotifierItem
  item_buttons : StrMap ButtonState
  item_menus : StrMap PopoverMenu
  item_manual_popovers : StrMap ManualPopover
  action_groups : StrMap Unit
  item_to_service_key : StrMap String

def TrayWidgetW.empty : TrayWidgetW :=
  { items := StrMap.empty, item_buttons := StrMap.empty,
    item_menus := StrMap.empty, item_manual_popovers := StrMap.empty,
    action_groups := StrMap.empty, item_to_service_key := StrMap.empty }

/-- `create_menu_for_item` (widget.rs:271-307): when the client snapshot
has menu data for the key, build the manual popover and store it under the
key; otherwise store the basic fallback popover in `item_menus`. -/
def create_menu_for_item (client : ClientItems) (s : TrayWidgetW)
    (service_key : String) : TrayWidgetW :=
  match client service_key with
  | some (_item, some menu) =>
      let popover : ManualPopover := { entries := create_manual_popover_menu menu.submenus }
      { s with item_manual_popovers := StrMap.insert service_key popover s.item_manual_popovers }
  | _ =>
      { s with item_menus := StrMap.insert service_key basic_popover_menu s.item_menus }

/-- `add_tray_item` (widget.rs:142-177). -/
def add_tray_item (client : ClientItems) (s : TrayWidgetW) (service_key : String)
    (item : StatusNotifierItem) : TrayWidgetW :=
  let s1 := { s with items := StrMap.insert service_key item s.items }
  let newIndex := StrMap.insert item.id service_key s1.item_to_service_key
  let s2 := { s1 with item_to_service_key := newIndex }
  let button := create_tray_button item
  let s3 := { s2 with item_buttons := StrMap.insert service_key button s2.item_buttons }
  create_menu_for_item client s3 service_key

/-- `update_tray_item` (widget.rs:179-208): re-applies the stored item's
icon and tooltip to the button, ignoring the update payload. -/
def update_tray_item (s : TrayWidgetW) (service_key : String) : TrayWidgetW :=
  match s.item_buttons service_key with
  | some button =>
      match s.items service_key with
      | some item =>
          let button1 := set_button_icon item.icon_name item.icon_pixmap button
          let button2 := set_tooltip button1 item.tool_tip item.title
          { s with item_buttons := StrMap.insert service_key button2 s.item_buttons }
      | none => s
  | none => s

/-- `remove_tray_item` (widget.rs:211-241): removes the button, the menu
realizations and the action group, then removes the item and — when an
item was stored — its `item_id → service_key` index entry (keyed by the
removed item's own id, whatever the entry currently points to). -/
def remove_tray_item (s : TrayWidgetW) (service_key : String) : TrayWidgetW :=
  let s1 := { s with item_buttons := StrMap.erase service_key s.item_buttons }
  let s2 := { s1 with
      item_menus := StrMap.erase service_key s1.item_menus,
      item_manual_popovers := StrMap.erase service_key s1.item_manual_popovers,
      action_groups := StrMap.erase service_key s1.action_groups }
  match s2.items service_key with
  | some item =>
      { s2 with items := StrMap.erase service_key s2.items,
                item_to_service_key := StrMap.erase item.id s2.item_to_service_key }
  | none => s2

/-- `handle_tray_event` (widget.rs:127-139). -/
def handle_tray_event_w (client : ClientItems) (s : TrayWidgetW) (event : Event) : TrayWidgetW :=
  match event with
  | .add service_key item => add_tray_item client s service_key item
  | .update service_key _u => update_tray_item s service_key
  | .remove service_key => remove_tray_item s service_key

/-- `get_service_key_for_item` (widget.rs:244-250). -/
def get_service_key_for_item_w (s : TrayWidgetW) (item_id : String) : Option String :=
  s.item_to_service_key item_id

def foldEventsW (client : ClientItems) (s : TrayWidgetW) (events : List Event) : TrayWidgetW :=
  events.foldl (handle_tray_event_w client) s

/-! ## The spec-side registry fold

Modelled from the spec (§8 and §4.3), for refinement comparison only:
"the Item Registry's final state equals the result of folding the events
in order: last Add/Update wins per key, Remove purges all three maps
(items, index, menus) for that key". -/

structure SpecRegistry where
  items : StrMap StatusNotifierItem
  index : StrMap String
  menus : StrMap PopoverMenu

def SpecRegistry.empty : SpecRegistry :=
  { items := StrMap.empty, index := StrMap.empty, menus := StrMap.empty }

/-- Modelled from the spec: `update(service_key, field-delta)` "mutates
only icon/tooltip/title fields". -/
def spec_apply_update (item : StatusNotifierItem) (u : UpdateEvent) : StatusNotifierItem :=
  match u with
  | .icon icon_name icon_pixmap => { item with icon_name := icon_name, icon_pixmap := icon_pixmap }
  | .tooltip tooltip => { item with tool_tip := tooltip }
  | .title title => { item with title := title }
  | _ => item

/-- Modelled from the spec: one fold step.  Add inserts/overwrites the
item and overwrites the index entry (last-add-wins); Update mutates the
stored item's fields (no-op if the key is unknown); Remove purges the
key from all three maps — in the index, every entry resolving to that
key. -/
def spec_fold_step (s : SpecRegistry) (e : Event) : SpecRegistry :=
  match e with
  | .add key item =>
      { s with items := StrMap.insert key item s.items,
               index := StrMap.insert item.id key s.index }
  | .update key u =>
      match s.items key with
      | some item => { s with items := StrMap.insert key (spec_apply_update item u) s.items }
      | none => s
  | .remove key =>
      { items := StrMap.erase key s.items,
        index := fun i => if s.index i = some key then none else s.index i,
        menus := StrMap.erase key s.menus }

def spec_fold (s : SpecRegistry) (events : List Event) : SpecRegistry :=
  events.foldl spec_fold_step s

/-! ## Failure tracking (lock poisoning, runtime construction)

`Mutex::lock` fails only when the mutex is poisoned.  The code handles
that failure in two styles: `.lock().unwrap()` (a panic) and
`if let Ok(..) = ..lock()` (a silent no-op branch).  `LockEnv` says which
mutexes are healthy; the lock-aware handler returns `Except.error` exactly
where the code would panic. -/

structure LockEnv where
  items_lock : Bool
  buttons_lock : Bool
  menus_lock : Bool
  map_lock : Bool
  client_lock : Bool

def LockEnv.allOk : LockEnv :=
  { items_lock := true, buttons_lock := true, menus_lock := true,
    map_lock := true, client_lock := true }

def except_is_error {α : Type} : Except String α → Bool
  | .error _ => true
  | .ok _ => false

/-- `create_popover_menu_for_service_key` (tray_widget.rs:190-239) with
lock outcomes: the client-items lock and the menus lock are both taken
with `if let Ok`, so their failure skips the store (never a panic). -/
def create_popover_menu_for_service_key_locks (env : LockEnv) (client : ClientItems)
    (s : TrayWidget) (service_key : String) : TrayWidget :=
  if env.client_lock = false then s
  else
    match client service_key with
    | some (_item, some menu) =>
        if env.menus_lock = false then s
        else
          let popover : PopoverMenu := { model := populate_gmenu_from_menu_items menu.submenus }
          { s with item_menus := StrMap.insert service_key popover s.item_menus }
    | _ => s

/-- `create_popover_menu_from_tray_menu` (tray_widget.rs:341-376) with
lock outcomes: the menus lock is taken with `if let Ok`. -/
def create_popover_menu_from_tray_menu_locks (env : LockEnv) (s : TrayWidget)
    (tray_menu : TrayMenu) (service_key : String) : TrayWidget :=
  if env.menus_lock = false then s
  else
    let popover : PopoverMenu := { model := populate_gmenu_from_menu_items tray_menu.submenus }
    { s with item_menus := StrMap.insert service_key popover s.item_menus }

/-- `handle_tray_event` (tray_widget.rs:457-580) with lock outcomes.
The Add arm unwraps the items, index and buttons locks in that order; the
Remove arm unwraps the items then the buttons lock; the Update arm
unwraps the buttons lock for its guard before dispatching, while the
locks taken inside the Menu/MenuConnect arms are all `if let Ok` sites
(a failed menus lock makes `needs_creation` default to `true`). -/
def handle_tray_event_locks (env : LockEnv) (client : ClientItems) (s : TrayWidget)
    (event : Event) : Except String TrayWidget :=
  match event with
  | .add key item =>
      if env.items_lock = false then .error "Add: items mutex poisoned (unwrap panic)"
      else
        let s1 := { s with items := StrMap.insert key item s.items }
        if env.map_lock = false then .error "Add: index mutex poisoned (unwrap panic)"
        else
          let s2 := { s1 with item_to_service_key := StrMap.insert item.id key s1.item_to_service_key }
          if env.buttons_lock = false then .error "Add: buttons mutex poisoned (unwrap panic)"
          else
            let button := create_tray_button item
            .ok { s2 with item_buttons := StrMap.insert key button s2.item_buttons }
  | .remove key =>
      if env.items_lock = false then .error "Remove: items mutex poisoned (unwrap panic)"
      else
        let s1 := { s with items := StrMap.erase key s.items }
        if env.buttons_lock = false then .error "Remove: buttons mutex poisoned (unwrap panic)"
        else .ok { s1 with item_buttons := StrMap.erase key s1.item_buttons }
  | .update key u =>
      if env.buttons_lock = false then .error "Update: buttons mutex poisoned (unwrap panic)"
      else
        match u with
        | .attentionIcon _ => .ok s
        | .icon icon_name icon_pixmap =>
            match s.item_buttons key with
            | some button =>
                let button1 := set_button_icon icon_name icon_pixmap button
                .ok { s with item_buttons := StrMap.insert key button1 s.item_buttons }
            | none => .ok s
        | .overlayIcon _ => .ok s
        | .status _ => .ok s
        | .title _ => .ok s
        | .tooltip tooltip =>
            match s.item_buttons key with
            | some button =>
                let button1 := set_tooltip button tooltip none
                .ok { s with item_buttons := StrMap.insert key button1 s.item_buttons }
            | none => .ok s
        | .menu tray_menu =>
            match s.item_buttons key with
            | some _button =>
                if env.items_lock = false then .ok s
                else
                  match s.items key with
                  | some _item =>
                      let needs_creation :=
                        if env.menus_lock then (s.item_menus key).isNone else true
                      if needs_creation then
                        .ok (create_popover_menu_from_tray_menu_locks env s tray_menu key)
                      else .ok s
                  | none => .ok s
            | none => .ok s
        | .menuDiff => .ok s
        | .menuConnect _menu_path =>
            match s.item_buttons key with
            | some _button =>
                if env.items_lock = false then .ok s
                else
                  match s.items key with
                  | some _item =>
                      .ok (create_popover_menu_for_service_key_locks env client s key)
                  | none => .ok s
            | none => .ok s

/-! ## The event bridge worker and shutdown (`start_event_listener`, `Drop`) -/

/-- What the worker's select loop resolves on one iteration
(tray_widget.rs:95-112): a subscription event (`Ok`), a closed
subscription stream (`Err`), or the shutdown signal. -/
inductive WorkerMsg where
  | recvOk (e : Event)
  | recvErr
  | shutdown

/-- The worker loop: forwards each received event into the channel and
exits at the first stream error or shutdown observation.  (A failed
channel send also exits the loop; the foreground receiver outlives the
worker here, so sends succeed.) -/
def worker_forward : List WorkerMsg → List Event
  | [] => []
  | .recvOk e :: rest => e :: worker_forward rest
  | .recvErr :: _ => []
  | .shutdown :: _ => []

/-- `start_event_listener`'s worker body (tray_widget.rs:75-114):
`Runtime::new().expect(..)` panics when runtime construction fails, the
initial-items read is `.lock().unwrap()` (panics when poisoned), then the
initial snapshot is forwarded as synthesized Add events followed by the
select loop's forwards. -/
def worker_run (runtime_ok : Bool) (initial_lock_ok : Bool)
    (initial : List (String × StatusNotifierItem)) (stream : List WorkerMsg) :
    Except String (List Event) :=
  if runtime_ok = false then .error "Failed to create tokio runtime (expect panic)"
  else if initial_lock_ok = false then .error "initial items mutex poisoned (unwrap panic)"
  else .ok ((initial.map fun p => Event.add p.1 p.2) ++ worker_forward stream)

/-- `Arc::try_unwrap` succeeds exactly when the strong count is 1. -/
def arc_try_unwrap_ok (strong_count : Nat) : Bool :=
  strong_count == 1

/-- Whether `Drop for TrayWidget` (tray_widget.rs:583-601) reaches the
join.  At drop entry the `thread_handle` field holds one strong reference
and `other_refs` counts any further clones; the drop body clones the Arc
(`self.thread_handle.clone()`), raising the count by one, and then joins
only if `Arc::try_unwrap` on the clone succeeds. -/
def drop_attempts_join (other_refs : Nat) : Bool :=
  arc_try_unwrap_ok ((1 + other_refs) + 1)

/-! ## Pointwise fold semantics of the live handler

Per-key step functions describing what the compiled handler actually
does to each map; the theorems below prove the handler's fold equal to
these and compare them with the spec-side fold. -/

/-- Per-key items-map semantics of the live handler: last Add wins,
Remove purges, Updates leave the stored item untouched. -/
def live_items_step (k : String) (acc : Option StatusNotifierItem) (e : Event) :
    Option StatusNotifierItem :=
  match e with
  | .add key item => if k = key then some item else acc
  | .remove key => if k = key then none else acc
  | .update _ _ => acc

/-- Per-id index semantics of the live handler: last Add wins for the
item id; no event ever removes an index entry. -/
def live_index_step (i : String) (acc : Option String) (e : Event) : Option String :=
  match e with
  | .add key item => if i = item.id then some key else acc
  | .update _ _ => acc
  | .remove _ => acc

/-! ## Concrete fixtures for counterexamples and witnesses -/

/-- A tray item with (non-unique) id "app", title "A" and named icon "Y". -/
def itemApp : StatusNotifierItem :=
  { id := "app", title := some "A", icon_name := some "Y",
    icon_pixmap := none, tool_tip := none }

/-- An empty client snapshot. -/
def client0 : ClientItems := StrMap.empty

/-- A one-entry menu tree labelled "One". -/
def menuOne : TrayMenu :=
  { submenus := [MenuItem.mk 1 (some "One") true true none MenuType.standard []] }

/-- A one-entry menu tree labelled "Two". -/
def menuTwo : TrayMenu :=
  { submenus := [MenuItem.mk 2 (some "Two") true true none MenuType.standard []] }

/-- A client snapshot holding menu data `menuTwo` for service key "svc". -/
def client_svc_two : ClientItems :=
  StrMap.insert "svc" (itemApp, some menuTwo) StrMap.empty

/-- C2 / C1 scenario: two Adds sharing item id "app", then Remove of the
second service. -/
def es_c2 : List Event :=
  [Event.add "svc:1" itemApp, Event.add "svc:2" itemApp, Event.remove "svc:2"]

/-- A registry state with item, button and a realized menu (from
`menuOne`) for key "svc". -/
def s_menu_one : TrayWidget :=
  foldEvents client0 TrayWidget.empty
    [Event.add "svc" itemApp, Event.update "svc" (.menu menuOne)]

/-- The registry after the (dead) `store_menu_for_item` re-keys the menu
of "svc" under the item id "app". -/
def s_after_store : TrayWidget := store_menu_for_item s_menu_one "app" "svc"

/-- A lock environment in which only the items mutex is poisoned. -/
def env_items_poisoned : LockEnv := { LockEnv.allOk with items_lock := false }

/-- A lock environment in which every mutex except the buttons one is
poisoned. -/
def env_only_buttons : LockEnv :=
  { items_lock := false, buttons_lock := true, menus_lock := false,
    map_lock := false, client_lock := false }

/-- A 1×1 pixmap whose buffer is one ARGB chunk plus a trailing byte. -/
def px_small : IconPixmap := { width := 1, height := 1, pixels := [7, 9, 11, 13] }

/-! ## Helper lemmas -/

theorem create_fsk_frame (client : ClientItems) (s : TrayWidget) (key : String) :
    (create_popover_menu_for_service_key client s key).items = s.items ∧
    (create_popover_menu_for_service_key client s key).item_buttons = s.item_buttons ∧
    (create_popover_menu_for_service_key client s key).item_to_service_key = s.item_to_service_key := by
  unfold create_popover_menu_for_service_key
  rcases h : client key with _ | ⟨it, _ | mn⟩ <;> simp

theorem handle_items_step (client : ClientItems) (s : TrayWidget) (e : Event) (k : String) :
    (handle_tray_event client s e).items k = live_items_step k (s.items k) e := by
  cases e with
  | add key item => simp [handle_tray_event, live_items_step, StrMap.insert]
  | remove key => simp [handle_tray_event, live_items_step, StrMap.erase]
  | update key u =>
      cases u with
      | icon a b =>
          cases hb : s.item_buttons key <;>
            simp [handle_tray_event, live_items_step, hb]
      | tooltip t =>
          cases hb : s.item_buttons key <;>
            simp [handle_tray_event, live_items_step, hb]
      | menu m =>
          cases hb : s.item_buttons key <;>
            cases hi : s.items key <;>
              simp [handle_tray_event, live_items_step, hb, hi,
                create_popover_menu_from_tray_menu] <;>
              split <;> simp
      | menuConnect p =>
          cases hb : s.item_buttons key <;>
            cases hi : s.items key <;>
              simp [handle_tray_event, live_items_step, hb, hi,
                (create_fsk_frame client s key).1]
      | _ => simp [handle_tray_event, live_items_step]

theorem handle_index_step (client : ClientItems) (s : TrayWidget) (e : Event) (i : String) :
    (handle_tray_event client s e).item_to_service_key i =
      live_index_step i (s.item_to_service_key i) e := by
  cases e with
  | add key item => simp [handle_tray_event, live_index_step, StrMap.insert]
  | remove key => simp [handle_tray_event, live_index_step]
  | update key u =>
      cases u with
      | icon a b =>
          cases hb : s.item_buttons key <;>
            simp [handle_tray_event, live_index_step, hb]
      | tooltip t =>
          cases hb : s.item_buttons key <;>
            simp [handle_tray_event, live_index_step, hb]
      | menu m =>
          cases hb : s.item_buttons key <;>
            cases hi : s.items key <;>
              simp [handle_tray_event, live_index_step, hb, hi,
                create_popover_menu_from_tray_menu] <;>
              split <;> simp
      | menuConnect p =>
          cases hb : s.item_buttons key <;>
            cases hi : s.items key <;>
              simp [handle_tray_event, live_index_step, hb, hi,
                (create_fsk_frame client s key).2.2]
      | _ => simp [handle_tray_event, live_index_step]

theorem foldEvents_items (es : List Event) : ∀ (client : ClientItems) (s : TrayWidget) (k : String),
    (foldEvents client s es).items k = es.foldl (live_items_step k) (s.items k) := by
  induction es with
  | nil => intro client s k; rfl
  | cons e rest ih =>
      intro client s k
      have h1 : foldEvents client s (e :: rest) =
          foldEvents client (handle_tray_event client s e) rest := rfl
      rw [h1, ih, List.foldl_cons, handle_items_step]

theorem foldEvents_index (es : List Event) : ∀ (client : ClientItems) (s : TrayWidget) (i : String),
    (foldEvents client s es).item_to_service_key i =
      es.foldl (live_index_step i) (s.item_to_service_key i) := by
  induction es with
  | nil => intro client s i; rfl
  | cons e rest ih =>
      intro client s i
      have h1 : foldEvents client s (e :: rest) =
          foldEvents client (handle_tray_event client s e) rest := rfl
      rw [h1, ih, List.foldl_cons, handle_index_step]

/-! ## C1 — event fold semantics of the registry -/

/-- C1 (corrected): replaying any event sequence through the compiled
handler folds per key as follows — the items map keeps the last Add per
service key and Remove purges it (Updates never touch it); the
item_id→service_key index keeps the last Add per item id and is never
purged; a Remove leaves both the index and the menu-realization map
completely unchanged (only items and buttons are purged). -/
theorem c1_live_fold (client : ClientItems) (es : List Event) (k i : String)
    (s : TrayWidget) (key : String) :
    (foldEvents client TrayWidget.empty es).items k = es.foldl (live_items_step k) none ∧
    (foldEvents client TrayWidget.empty es).item_to_service_key i =
      es.foldl (live_index_step i) none ∧
    (handle_tray_event client s (.remove key)).item_menus = s.item_menus ∧
    (handle_tray_event client s (.remove key)).item_to_service_key = s.item_to_service_key := by
  refine ⟨foldEvents_items es client TrayWidget.empty k,
    foldEvents_index es client TrayWidget.empty i, rfl, rfl⟩

/-- C1 witness: the fold characterization evaluated on the C2 scenario. -/
theorem c1_live_fold_witness :
    (foldEvents client0 TrayWidget.empty es_c2).items "svc:2" =
      es_c2.foldl (live_items_step "svc:2") none ∧
    (foldEvents client0 TrayWidget.empty es_c2).item_to_service_key "app" =
      es_c2.foldl (live_index_step "app") none := by
  have h := c1_live_fold client0 es_c2 "svc:2" "app" TrayWidget.empty "svc:2"
  exact ⟨h.1, h.2.1⟩

/-- C1 counterexample: after Add("k") then Remove("k"), the compiled
registry still resolves the item id "app" to "k", while the spec-side
fold (Remove purges the index) resolves it to none — the final state does
not equal the spec fold. -/
theorem c1_counterexample :
    get_service_key_for_item
        (foldEvents client0 TrayWidget.empty [Event.add "k" itemApp, Event.remove "k"]) "app" =
      some "k" ∧
    (spec_fold SpecRegistry.empty [Event.add "k" itemApp, Event.remove "k"]).index "app" = none ∧
    some "k" ≠ (none : Option String) := by
  refine ⟨by decide, by decide, by decide⟩

/-! ## C2 — same-item-id Adds and Remove -/

/-- C2 (corrected): after Add("svc:1") and Add("svc:2") with the same item
id "app", resolution returns "svc:2" (last-add-wins).  After
Remove("svc:2"), the compiled handler still resolves "app" to "svc:2"
(the index entry survives); only `widget.rs`'s `remove_tray_item` deletes
the entry, making resolution return none (and not fall back to
"svc:1"). -/
theorem c2_remove_resolution :
    get_service_key_for_item
        (foldEvents client0 TrayWidget.empty
          [Event.add "svc:1" itemApp, Event.add "svc:2" itemApp]) "app" = some "svc:2" ∧
    get_service_key_for_item (foldEvents client0 TrayWidget.empty es_c2) "app" = some "svc:2" ∧
    get_service_key_for_item_w (foldEventsW client0 TrayWidgetW.empty es_c2) "app" = none := by
  refine ⟨by decide, by decide, by decide⟩

/-- C2 counterexample: on the compiled handler the scenario leaves the
index entry in place — resolution yields some "svc:2", not none as the
claim states. -/
theorem c2_counterexample :
    get_service_key_for_item (foldEvents client0 TrayWidget.empty es_c2) "app" = some "svc:2" ∧
    some "svc:2" ≠ (none : Option String) := by
  refine ⟨by decide, by decide⟩

/-! ## C3 — menu building, skip-if-present vs replace -/

/-- C3 (corrected): the Menu-update path is skip-if-present — with a
realization already cached for the key, a Menu update with any tree
leaves the whole menu map unchanged.  The MenuConnect path is not: with a
live button and item for the key, when the client snapshot holds menu
data it stores a fresh realization built from that data (overwriting any
cached one), and when the client has no entry for the key it leaves the
menu map unchanged. -/
theorem c3_menu_paths (client : ClientItems) (s : TrayWidget) (key path : String)
    (tray_menu : TrayMenu) (it : StatusNotifierItem) (mn : TrayMenu) :
    ((s.item_menus key).isSome = true →
      (handle_tray_event client s (.update key (.menu tray_menu))).item_menus = s.item_menus) ∧
    ((s.item_buttons key).isSome = true → (s.items key).isSome = true →
      client key = some (it, some mn) →
      (handle_tray_event client s (.update key (.menuConnect path))).item_menus key =
        some { model := populate_gmenu_from_menu_items mn.submenus }) ∧
    (client key = none →
      (handle_tray_event client s (.update key (.menuConnect path))).item_menus = s.item_menus) := by
  refine ⟨?_, ?_, ?_⟩
  · intro hm
    cases hb : s.item_buttons key <;> cases hi : s.items key <;>
      simp [handle_tray_event, hb, hi, hm]
  · intro hb hi hc
    rcases hb2 : s.item_buttons key with _ | b
    · rw [hb2] at hb; simp at hb
    rcases hi2 : s.items key with _ | i2
    · rw [hi2] at hi; simp at hi
    simp [handle_tray_event, hb2, hi2, create_popover_menu_for_service_key, hc, StrMap.insert]
  · intro hc
    cases hb : s.item_buttons key <;> cases hi : s.items key <;>
      simp [handle_tray_event, hb, hi, create_popover_menu_for_service_key, hc]

/-- C3 witness: on the concrete state `s_menu_one` (realization built from
`menuOne`), a Menu update with `menuTwo` is skipped while a MenuConnect
with client data `menuTwo` stores the new realization. -/
theorem c3_menu_paths_witness :
    (s_menu_one.item_menus "svc").isSome = true ∧
    (handle_tray_event client_svc_two s_menu_one
        (.update "svc" (.menu menuTwo))).item_menus = s_menu_one.item_menus ∧
    (handle_tray_event client_svc_two s_menu_one
        (.update "svc" (.menuConnect "/MenuBar"))).item_menus "svc" =
      some { model := populate_gmenu_from_menu_items menuTwo.submenus } := by
  have h := c3_menu_paths client_svc_two s_menu_one "svc" "/MenuBar" menuTwo itemApp menuTwo
  exact ⟨by decide, h.1 (by decide), h.2.1 (by decide) (by decide) (by rfl)⟩

/-- C3 counterexample: with the realization from the first build (from
`menuOne`) cached, an out-of-band MenuConnect whose client snapshot holds
`menuTwo` replaces the cached realization instead of leaving it
unchanged. -/
theorem c3_counterexample :
    s_menu_one.item_menus "svc" = some { model := [GEntry.entry "One" true 1] } ∧
    (handle_tray_event client_svc_two s_menu_one
        (.update "svc" (.menuConnect "/MenuBar"))).item_menus "svc" =
      some { model := [GEntry.entry "Two" true 2] } ∧
    (some { model := [GEntry.entry "Two" true 2] } : Option PopoverMenu) ≠
      some { model := [GEntry.entry "One" true 1] } := by
  refine ⟨by decide, by decide, by decide⟩

/-! ## C4 — service-key-exclusive keying -/

theorem create_fsk_key_origin (client : ClientItems) (s : TrayWidget) (key k : String) :
    ((create_popover_menu_for_service_key client s key).item_menus k).isSome = true →
      (s.item_menus k).isSome = true ∨ k = key := by
  unfold create_popover_menu_for_service_key
  rcases h : client key with _ | ⟨it, _ | mn⟩ <;> simp [StrMap.insert] <;>
    by_cases hk : k = key <;> simp [hk]

theorem handle_key_origin (client : ClientItems) (s : TrayWidget) (e : Event) (k : String) :
    (((handle_tray_event client s e).items k).isSome = true →
      (s.items k).isSome = true ∨ k = event_service_key e) ∧
    (((handle_tray_event client s e).item_buttons k).isSome = true →
      (s.item_buttons k).isSome = true ∨ k = event_service_key e) ∧
    (((handle_tray_event client s e).item_menus k).isSome = true →
      (s.item_menus k).isSome = true ∨ k = event_service_key e) := by
  cases e with
  | add key item =>
      by_cases hk : k = key <;>
        simp [handle_tray_event, StrMap.insert, event_service_key, hk]
  | remove key =>
      by_cases hk : k = key <;>
        simp [handle_tray_event, StrMap.erase, event_service_key, hk]
  | update key u =>
      cases u with
      | icon a b =>
          cases hb : s.item_buttons key <;>
            by_cases hk : k = key <;>
              simp [handle_tray_event, StrMap.insert, event_service_key, hb, hk]
      | tooltip t =>
          cases hb : s.item_buttons key <;>
            by_cases hk : k = key <;>
              simp [handle_tray_event, StrMap.insert, event_service_key, hb, hk]
      | menu m =>
          cases hb : s.item_buttons key <;> cases hi : s.items key <;>
            by_cases hk : k = key <;>
              simp [handle_tray_event, StrMap.insert, event_service_key, hb, hi,
                create_popover_menu_from_tray_menu, hk] <;>
              split <;> simp [StrMap.insert, hk]
      | menuConnect p =>
          rcases hb : s.item_buttons key with _ | b <;> rcases hi : s.items key with _ | it2 <;>
            simp only [handle_tray_event, hb, hi, event_service_key] <;>
            refine ⟨?_, ?_, ?_⟩ <;> try tauto
          · rw [(create_fsk_frame client s key).1]; tauto
          · rw [(create_fsk_frame client s key).2.1]; tauto
          · exact fun h => create_fsk_key_origin client s key k h
      | _ => exact ⟨fun h => Or.inl h, fun h => Or.inl h, fun h => Or.inl h⟩

theorem fold_key_origin (es : List Event) : ∀ (client : ClientItems) (s : TrayWidget) (k : String),
    (((foldEvents client s es).items k).isSome = true →
      (s.items k).isSome = true ∨ k ∈ es.map event_service_key) ∧
    (((foldEvents client s es).item_buttons k).isSome = true →
      (s.item_buttons k).isSome = true ∨ k ∈ es.map event_service_key) ∧
    (((foldEvents client s es).item_menus k).isSome = true →
      (s.item_menus k).isSome = true ∨ k ∈ es.map event_service_key) := by
  induction es with
  | nil => intro client s k; simp [foldEvents]
  | cons e rest ih =>
      intro client s k
      have hstep := handle_key_origin client s e k
      have hrest := ih client (handle_tray_event client s e) k
      have h1 : foldEvents client s (e :: rest) =
          foldEvents client (handle_tray_event client s e) rest := rfl
      rw [h1]
      refine ⟨fun h => ?_, fun h => ?_, fun h => ?_⟩
      · rcases hrest.1 h with h2 | h2
        · rcases hstep.1 h2 with h3 | h3
          · exact Or.inl h3
          · simp [h3]
        · simp [h2]
      · rcases hrest.2.1 h with h2 | h2
        · rcases hstep.2.1 h2 with h3 | h3
          · exact Or.inl h3
          · simp [h3]
        · simp [h2]
      · rcases hrest.2.2 h with h2 | h2
        · rcases hstep.2.2 h2 with h3 | h3
          · exact Or.inl h3
          · simp [h3]
        · simp [h2]

/-- C4 (corrected): every event-reachable operation keys the registry maps
exclusively by service key — after any event sequence, every key present
in the items, buttons or menus map is the service key of one of the
events (never an item id as such).  The unreachable helper
`store_menu_for_item` is the exception the counterexample exhibits. -/
theorem c4_keying (client : ClientItems) (es : List Event) (k : String) :
    (((foldEvents client TrayWidget.empty es).items k).isSome = true →
      k ∈ es.map event_service_key) ∧
    (((foldEvents client TrayWidget.empty es).item_buttons k).isSome = true →
      k ∈ es.map event_service_key) ∧
    (((foldEvents client TrayWidget.empty es).item_menus k).isSome = true →
      k ∈ es.map event_service_key) := by
  have h := fold_key_origin es client TrayWidget.empty k
  refine ⟨fun h2 => ?_, fun h2 => ?_, fun h2 => ?_⟩
  · rcases h.1 h2 with h3 | h3
    · simp [TrayWidget.empty, StrMap.empty] at h3
    · exact h3
  · rcases h.2.1 h2 with h3 | h3
    · simp [TrayWidget.empty, StrMap.empty] at h3
    · exact h3
  · rcases h.2.2 h2 with h3 | h3
    · simp [TrayWidget.empty, StrMap.empty] at h3
    · exact h3

/-- C4 witness: on the C2 scenario the key "svc:1" carried by the maps is
one of the events' service keys. -/
theorem c4_keying_witness :
    ((foldEvents client0 TrayWidget.empty es_c2).items "svc:1").isSome = true ∧
    "svc:1" ∈ es_c2.map event_service_key := by
  refine ⟨by decide, (c4_keying client0 es_c2 "svc:1").1 (by decide)⟩

/-- C4 counterexample: the registry operation `store_menu_for_item`
(tray_widget.rs:155-170) re-keys a cached menu under the item id — after
it runs, the menu map holds an entry keyed by "app" (the item id, not a
service key of any event) and no longer one keyed by "svc". -/
theorem c4_counterexample :
    (s_after_store.item_menus "app").isSome = true ∧
    s_after_store.item_menus "svc" = none ∧
    ("app" : String) ≠ "svc" := by
  refine ⟨by decide, by decide, by decide⟩

/-! ## C5 — totality and panic sites -/

theorem create_locks_allOk_ftm (s : TrayWidget) (m : TrayMenu) (key : String) :
    create_popover_menu_from_tray_menu_locks LockEnv.allOk s m key =
      create_popover_menu_from_tray_menu s m key := by
  simp [create_popover_menu_from_tray_menu_locks, create_popover_menu_from_tray_menu, LockEnv.allOk]

theorem create_locks_allOk_fsk (client : ClientItems) (s : TrayWidget) (key : String) :
    create_popover_menu_for_service_key_locks LockEnv.allOk client s key =
      create_popover_menu_for_service_key client s key := by
  unfold create_popover_menu_for_service_key_locks create_popover_menu_for_service_key
  rcases h : client key with _ | ⟨it, _ | mn⟩ <;> simp [LockEnv.allOk]

/-- C5 (corrected): with every mutex healthy the handler never panics and
computes exactly the pure fold step; the Update/MenuConnect path never
panics whatever the state of the other locks (its inner lock sites are
all `if let Ok` no-op sites), as long as its button-guard lock is
healthy; and the worker forwards events without panicking once the
runtime is constructed and the initial-items lock is healthy.  Lock
failure at an `unwrap` site and runtime-construction failure panic; the
counterexample exhibits the Add arm. -/
theorem c5_failure_handling (client : ClientItems) (s : TrayWidget) (e : Event)
    (env : LockEnv) (key path : String) (initial : List (String × StatusNotifierItem))
    (stream : List WorkerMsg) :
    (handle_tray_event_locks LockEnv.allOk client s e = .ok (handle_tray_event client s e)) ∧
    (env.buttons_lock = true →
      except_is_error (handle_tray_event_locks env client s (.update key (.menuConnect path))) =
        false) ∧
    (except_is_error (worker_run true true initial stream) = false) := by
  refine ⟨?_, ?_, by simp [worker_run, except_is_error]⟩
  · cases e with
    | add k2 item => simp [handle_tray_event_locks, handle_tray_event, LockEnv.allOk]
    | remove k2 => simp [handle_tray_event_locks, handle_tray_event, LockEnv.allOk]
    | update k2 u =>
        cases u with
        | icon a b =>
            cases hb : s.item_buttons k2 <;>
              simp [handle_tray_event_locks, handle_tray_event, LockEnv.allOk, hb]
        | tooltip t =>
            cases hb : s.item_buttons k2 <;>
              simp [handle_tray_event_locks, handle_tray_event, LockEnv.allOk, hb]
        | menu m =>
            cases hb : s.item_buttons k2 <;> cases hi : s.items k2 <;>
              simp [handle_tray_event_locks, handle_tray_event, LockEnv.allOk, hb, hi,
                create_locks_allOk_ftm, Option.isNone_iff_eq_none] <;>
              rcases hm : s.item_menus k2 with _ | pm <;> simp [hm]
            all_goals exact create_locks_allOk_ftm s m k2
        | menuConnect p =>
            cases hb : s.item_buttons k2 <;> cases hi : s.items k2 <;>
              simp [handle_tray_event_locks, handle_tray_event, LockEnv.allOk, hb, hi,
                create_locks_allOk_fsk]
            all_goals exact create_locks_allOk_fsk client s k2
        | _ => simp [handle_tray_event_locks, handle_tray_event, LockEnv.allOk]
  · intro hb
    rcases hbk : s.item_buttons key with _ | b <;>
      simp [handle_tray_event_locks, hb, hbk, except_is_error] <;>
      rcases hik : s.items key with _ | it2 <;>
        rcases he : env.items_lock with _ | _ <;> simp [hik, except_is_error]

/-- C5 witness: on a concrete state and event, the all-locks-healthy run
returns the pure step, and the MenuConnect path survives every other lock
being poisoned. -/
theorem c5_failure_handling_witness :
    (handle_tray_event_locks LockEnv.allOk client0 s_menu_one (.remove "svc") =
      .ok (handle_tray_event client0 s_menu_one (.remove "svc"))) ∧
    (except_is_error
        (handle_tray_event_locks env_only_buttons client0 s_menu_one
          (.update "svc" (.menuConnect "/MenuBar"))) = false) := by
  have h := c5_failure_handling client0 s_menu_one (.remove "svc") env_only_buttons
    "svc" "/MenuBar" [] []
  exact ⟨h.1, h.2.1 (by decide)⟩

/-- C5 counterexample: a poisoned items mutex makes the Add arm panic
(`.lock().unwrap()` at tray_widget.rs:463-466) instead of degrading to a
log-plus-no-op. -/
theorem c5_counterexample :
    except_is_error
        (handle_tray_event_locks env_items_poisoned client0 TrayWidget.empty
          (.add "k" itemApp)) = true ∧
    except_is_error (worker_run false true [] []) = true := by
  refine ⟨by decide, by decide⟩

/-! ## C6 — frame property of an icon Update -/

/-- C6 (corrected): after Add(k, item) then Update(k, icon=X), the stored
item is completely unchanged (title and every other field, including its
icon fields, are as added — the stored item does not receive icon X);
only the button is touched, and there only the content slot: its tooltip
and css classes are preserved. -/
theorem c6_icon_update_frame (client : ClientItems) (k : String)
    (item : StatusNotifierItem) (icon_name : Option String)
    (icon_pixmap : Option (List IconPixmap)) (b : ButtonState) :
    (foldEvents client TrayWidget.empty
        [Event.add k item, Event.update k (.icon icon_name icon_pixmap)]).items k = some item ∧
    (foldEvents client TrayWidget.empty
        [Event.add k item, Event.update k (.icon icon_name icon_pixmap)]).item_buttons k =
      some (set_button_icon icon_name icon_pixmap (create_tray_button item)) ∧
    (set_button_icon icon_name icon_pixmap b).tooltip_text = b.tooltip_text ∧
    (set_button_icon icon_name icon_pixmap b).css_classes = b.css_classes := by
  refine ⟨?_, ?_, ?_, ?_⟩
  · simp [foldEvents, handle_tray_event, StrMap.insert]
  · simp [foldEvents, handle_tray_event, StrMap.insert]
  · unfold set_button_icon
    rcases create_button_icon icon_name icon_pixmap with _ | im <;> simp
  · unfold set_button_icon
    rcases create_button_icon icon_name icon_pixmap with _ | im <;> simp

/-- C6 counterexample: Add("svc:1", itemApp) (icon name "Y", title "A")
then Update(icon="X"): the stored item still carries icon name "Y", not
"X" — querying the stored item does not yield icon X. -/
theorem c6_counterexample :
    ((foldEvents client0 TrayWidget.empty
        [Event.add "svc:1" itemApp,
         Event.update "svc:1" (.icon (some "X") none)]).items "svc:1").map
        StatusNotifierItem.icon_name = some (some "Y") ∧
    some (some "Y") ≠ some (some "X") ∧ itemApp.title = some "A" := by
  refine ⟨by decide, by decide, by decide⟩

/-! ## C7 — last-add-wins index -/

/-- C7 (confirmed): for two Adds carrying items with the same item id but
different service keys, resolving that id afterwards returns the second
service key. -/
theorem c7_last_add_wins (client : ClientItems) (s : TrayWidget) (k1 k2 : String)
    (item1 item2 : StatusNotifierItem) (h : item1.id = item2.id) (hk : k1 ≠ k2) :
    get_service_key_for_item
        (foldEvents client s [Event.add k1 item1, Event.add k2 item2]) item2.id = some k2 := by
  simp [foldEvents, handle_tray_event, get_service_key_for_item, StrMap.insert]

/-- C7 witness: two concrete Adds sharing item id "app". -/
theorem c7_last_add_wins_witness :
    get_service_key_for_item
        (foldEvents client0 TrayWidget.empty
          [Event.add "svc:1" itemApp, Event.add "svc:2" itemApp]) itemApp.id = some "svc:2" := by
  exact c7_last_add_wins client0 TrayWidget.empty "svc:1" "svc:2" itemApp itemApp rfl (by decide)

/-! ## C8 — shutdown protocol -/

/-- C8: the worker half of the claim holds — once the select loop observes
the shutdown signal it forwards nothing further, whatever arrives
afterwards.  The close half does not: `Drop for TrayWidget` clones the
thread-handle Arc before `Arc::try_unwrap`, so the strong count at the
unwrap is at least two (the struct field plus the clone) whatever else
holds references, the unwrap always fails, and the join is silently
skipped — the drop path never waits for the worker thread. -/
theorem c8_shutdown (pre post : List WorkerMsg) (other_refs : Nat) :
    worker_forward (pre ++ WorkerMsg.shutdown :: post) = worker_forward pre ∧
    drop_attempts_join other_refs = false := by
  constructor
  · induction pre with
    | nil => rfl
    | cons m rest ih => cases m <;> simp [worker_forward, ih]
  · simp [drop_attempts_join, arc_try_unwrap_ok]

/-! ## C9 — items and buttons stay key-synchronized -/

theorem handle_keys_sync (client : ClientItems) (s : TrayWidget) (e : Event)
    (h : ∀ k, (s.items k).isSome = (s.item_buttons k).isSome) :
    ∀ k, ((handle_tray_event client s e).items k).isSome =
      ((handle_tray_event client s e).item_buttons k).isSome := by
  intro k
  cases e with
  | add key item =>
      by_cases hk : k = key <;> simp [handle_tray_event, StrMap.insert, hk, h k]
  | remove key =>
      by_cases hk : k = key <;> simp [handle_tray_event, StrMap.erase, hk, h k]
  | update key u =>
      cases u with
      | icon a b =>
          rcases hb : s.item_buttons key with _ | btn
          · simp [handle_tray_event, hb, h k]
          · by_cases hk : k = key <;>
              simp [handle_tray_event, StrMap.insert, hb, hk, h k]
            rw [h key, hb]
            rfl
      | tooltip t =>
          rcases hb : s.item_buttons key with _ | btn
          · simp [handle_tray_event, hb, h k]
          · by_cases hk : k = key <;>
              simp [handle_tray_event, StrMap.insert, hb, hk, h k]
            rw [h key, hb]
            rfl
      | menu m =>
          rcases hb : s.item_buttons key with _ | btn <;>
            rcases hi : s.items key with _ | it2 <;>
              simp [handle_tray_event, hb, hi, h k, create_popover_menu_from_tray_menu]
          split <;> simp [h k]
      | menuConnect p =>
          rcases hb : s.item_buttons key with _ | btn <;>
            rcases hi : s.items key with _ | it2 <;>
              simp [handle_tray_event, hb, hi, h k,
                (create_fsk_frame client s key).1, (create_fsk_frame client s key).2.1]
      | _ => simp [handle_tray_event, h k]

theorem fold_keys_sync (es : List Event) : ∀ (client : ClientItems) (s : TrayWidget),
    (∀ k, (s.items k).isSome = (s.item_buttons k).isSome) →
    ∀ k, ((foldEvents client s es).items k).isSome =
      ((foldEvents client s es).item_buttons k).isSome := by
  induction es with
  | nil => intro client s h k; exact h k
  | cons e rest ih =>
      intro client s h k
      exact ih client (handle_tray_event client s e) (handle_keys_sync client s e h) k

/-- C9 (confirmed): starting from the empty registry, after any event
sequence the items map and the buttons (UI-handle) map hold exactly the
same set of service keys. -/
theorem c9_items_buttons_sync (client : ClientItems) (es : List Event) (k : String) :
    ((foldEvents client TrayWidget.empty es).items k).isSome =
      ((foldEvents client TrayWidget.empty es).item_buttons k).isSome := by
  exact fold_keys_sync es client TrayWidget.empty (fun _ => rfl) k

/-! ## C10 — ARGB→RGBA pixel conversion -/

theorem convert_short (l : List Nat) (h : l.length < 4) : convert_argb_to_rgba l = [] := by
  rcases l with _ | ⟨a, _ | ⟨b, _ | ⟨c, _ | ⟨d, r⟩⟩⟩⟩
  · rfl
  · rfl
  · rfl
  · rfl
  · simp [List.length_cons] at h
    omega

theorem convert_length (l : List Nat) :
    (convert_argb_to_rgba l).length = 4 * (l.length / 4) := by
  induction l using convert_argb_to_rgba.induct with
  | case1 c0 c1 c2 c3 rest ih =>
      simp [convert_argb_to_rgba, argb_chunk_to_rgba, ih]
      omega
  | case2 l h =>
      have h4 : l.length < 4 := by
        rcases l with _ | ⟨a, _ | ⟨b, _ | ⟨c, _ | ⟨d, r⟩⟩⟩⟩ <;> simp
        exact absurd rfl (h a b c d r)
      rw [convert_short l h4]
      simp
      omega

theorem convert_chunk (c0 c1 c2 c3 : Nat) (rest : List Nat)
    (h0 : c0 < 256) (h1 : c1 < 256) (h2 : c2 < 256) (h3 : c3 < 256) :
    convert_argb_to_rgba (c0 :: c1 :: c2 :: c3 :: rest) =
      c1 :: c2 :: c3 :: c0 :: convert_argb_to_rgba rest := by
  show argb_chunk_to_rgba c0 c1 c2 c3 ++ convert_argb_to_rgba rest = _
  simp [argb_chunk_to_rgba, u32_from_be_bytes]
  norm_num
  omega

theorem convert_append (l extra : List Nat) (hl : l.length % 4 = 0)
    (he : extra.length < 4) :
    convert_argb_to_rgba (l ++ extra) = convert_argb_to_rgba l := by
  induction l using convert_argb_to_rgba.induct with
  | case1 c0 c1 c2 c3 rest ih =>
      have hr : rest.length % 4 = 0 := by simp at hl; omega
      show argb_chunk_to_rgba c0 c1 c2 c3 ++ convert_argb_to_rgba (rest ++ extra) = _
      rw [ih hr]
      rfl
  | case2 l h =>
      have h4 : l.length < 4 := by
        rcases l with _ | ⟨a, _ | ⟨b, _ | ⟨c, _ | ⟨d, r⟩⟩⟩⟩ <;> simp
        exact absurd rfl (h a b c d r)
      have hnil : l = [] := by
        rcases l with _ | ⟨a, r⟩
        · rfl
        · simp at hl h4; omega
      rw [hnil]
      show convert_argb_to_rgba extra = convert_argb_to_rgba []
      rw [convert_short extra he]
      rfl

/-- C10 (confirmed): the pixmap branch is taken only when no non-empty
icon name exists and the pixmap list is non-empty; the conversion maps
every aligned big-endian ARGB 4-byte group to (r, g, b, a), silently
drops trailing bytes beyond a multiple of four, and outputs 4 bytes per
complete input chunk. -/
theorem c10_pixel_conversion (data rest extra : List Nat) (c0 c1 c2 c3 : Nat)
    (px : IconPixmap) (pxs : List IconPixmap) (name : String) :
    ((convert_argb_to_rgba data).length = 4 * (data.length / 4)) ∧
    (c0 < 256 → c1 < 256 → c2 < 256 → c3 < 256 →
      convert_argb_to_rgba (c0 :: c1 :: c2 :: c3 :: rest) =
        c1 :: c2 :: c3 :: c0 :: convert_argb_to_rgba rest) ∧
    (data.length % 4 = 0 → extra.length < 4 →
      convert_argb_to_rgba (data ++ extra) = convert_argb_to_rgba data) ∧
    (name ≠ "" →
      create_button_icon (some name) (some (px :: pxs)) = some (Image.named name 16)) ∧
    (create_button_icon none (some (px :: pxs)) =
      some (Image.pixbuf (convert_argb_to_rgba px.pixels) px.width px.height
        (px.width * 4) 16)) ∧
    (create_button_icon (some "") (some (px :: pxs)) =
      some (Image.pixbuf (convert_argb_to_rgba px.pixels) px.width px.height
        (px.width * 4) 16)) := by
  refine ⟨convert_length data,
    fun h0 h1 h2 h3 => convert_chunk c0 c1 c2 c3 rest h0 h1 h2 h3,
    fun hl he => convert_append data extra hl he, fun hn => ?_, ?_, ?_⟩
  · simp [create_button_icon, hn]
  · rfl
  · rfl

/-- C10 witness: the conversion and the icon gating evaluated on concrete
bytes (`px_small` has buffer [7, 9, 11, 13]). -/
theorem c10_pixel_conversion_witness :
    (convert_argb_to_rgba [7, 9, 11, 13]).length = 4 * (([7, 9, 11, 13] : List Nat).length / 4) ∧
    convert_argb_to_rgba [7, 9, 11, 13, 20] = 9 :: 11 :: 13 :: 7 :: convert_argb_to_rgba [20] ∧
    convert_argb_to_rgba ([7, 9, 11, 13] ++ [20]) = convert_argb_to_rgba [7, 9, 11, 13] ∧
    create_button_icon (some "Y") (some [px_small]) = some (Image.named "Y" 16) := by
  have h := c10_pixel_conversion [7, 9, 11, 13] [20] [20] 7 9 11 13 px_small [] "Y"
  exact ⟨h.1, h.2.1 (by decide) (by decide) (by decide) (by decide),
    h.2.2.1 (by decide) (by decide), h.2.2.2.1 (by decide)⟩

end BladeBar
